import Mathlib

/-!
# Verification of the `VideoPlayer` playback/control state synchronization logic

Shallow embedding of `src/react-video-player/index.tsx`. Each React state
variable becomes a field of `PlayerState`; the `<video>` element is the
external `Video` record (queried) plus emitted `Cmd`s (commanded); the
single hide timer is modelled operationally: the set of live timers is a
list, and `controlsTimeoutRef` stores the handle of the most recently
scheduled one, exactly as the ref cell in the source. A scheduled timeout
callback closes over the `isPlaying` value of the render that created it,
so each timer records that captured Boolean; firing a timer evaluates the
source callback `if (isPlaying) setIsControlsVisible(false)` against the
captured value, which is what the JavaScript closure does.

JavaScript number division by zero does not throw: `0/0` is `NaN` and
`x/0` is `±Infinity`. `JSNum` embeds the values reachable by the
`progress` state field, and `jsDivQ` / `jsMulNum` give the JS semantics of
`(video.currentTime / video.duration) * 100` from `handleTimeUpdate`.
-/

namespace VideoPlayer

/-- A JavaScript number as stored in the `progress` state field: a finite
rational, `NaN`, or a signed infinity. -/
inductive JSNum where
  | num (q : ℚ)
  | nan
  | posInf
  | negInf
deriving DecidableEq, Repr

/-- JS division of two finite numbers: `0/0 = NaN`, `a/0 = ±Infinity` for
`a ≠ 0`, ordinary rational division otherwise. -/
def jsDivQ (a b : ℚ) : JSNum :=
  if b = 0 then
    if a = 0 then JSNum.nan else if 0 < a then JSNum.posInf else JSNum.negInf
  else JSNum.num (a / b)

/-- JS multiplication of a possibly non-finite number by a finite one
(used for the `* 100` in `handleTimeUpdate`). -/
def jsMulNum : JSNum → ℚ → JSNum
  | JSNum.num a, c => JSNum.num (a * c)
  | JSNum.nan, _ => JSNum.nan
  | JSNum.posInf, c =>
    if c = 0 then JSNum.nan else if 0 < c then JSNum.posInf else JSNum.negInf
  | JSNum.negInf, c =>
    if c = 0 then JSNum.nan else if 0 < c then JSNum.negInf else JSNum.posInf

/-- A command issued to the external media resource (the `<video>`
element): `video.play()`, `video.pause()`, `video.currentTime = t`,
`video.volume = v`. -/
inductive Cmd where
  | play
  | pause
  | setCurrentTime (t : ℚ)
  | setVolume (v : ℚ)
deriving DecidableEq, Repr

/-- The queryable face of the media resource: the values the component
reads from `videoRef.current`. -/
structure Video where
  currentTime : ℚ
  duration : ℚ
deriving DecidableEq, Repr

/-- The React state of the component: one field per `useState` in the
source. `progress` is a `JSNum` because `handleTimeUpdate` can store
`NaN`/`Infinity` into it. -/
structure PlayerState where
  isPlaying : Bool
  progress : JSNum
  volume : ℚ
  isMuted : Bool
  duration : ℚ
  currentTime : ℚ
  isControlsVisible : Bool
deriving DecidableEq, Repr

/-- A live `setTimeout` created by `showControlsTemporarily`: its handle,
the `isPlaying` value captured by the callback closure at the render that
created it, and its absolute fire time (schedule time + 3000 ms). -/
structure HideTimer where
  id : ℕ
  capturedIsPlaying : Bool
  fireAt : ℚ
deriving DecidableEq, Repr

/-- The whole mounted component: React state, the set of timers whose
callbacks are still pending in the host, the `controlsTimeoutRef` cell,
a fresh-handle counter, and whether the three media event listeners are
currently attached. -/
structure Component where
  state : PlayerState
  liveTimers : List HideTimer
  controlsTimeoutRef : Option ℕ
  nextTimerId : ℕ
  listenersAttached : Bool
deriving DecidableEq, Repr

/-- Initial React state on mount: `isPlaying = autoPlay`, `progress = 0`,
`volume = 0.5`, `isMuted = false`, `duration = 0`, `currentTime = 0`,
`isControlsVisible = true`. -/
def initialState (autoPlay : Bool) : PlayerState :=
  { isPlaying := autoPlay
    progress := JSNum.num 0
    volume := 1 / 2
    isMuted := false
    duration := 0
    currentTime := 0
    isControlsVisible := true }

/-- A freshly constructed component: initial state, no live timers, empty
ref, no listeners yet. -/
def initialComponent (autoPlay : Bool) : Component :=
  { state := initialState autoPlay
    liveTimers := []
    controlsTimeoutRef := none
    nextTimerId := 0
    listenersAttached := false }

/-- The mount effect body (first `useEffect`): if the video ref is null it
returns without attaching anything; otherwise it attaches the
`timeupdate` / `loadedmetadata` / `ended` listeners. -/
def mountEffect (video : Option Video) (c : Component) : Component :=
  match video with
  | none => c
  | some _ => { c with listenersAttached := true }

/-- The unmount cleanup of the first `useEffect`: removes the three event
listeners. Nothing in the source clears `controlsTimeoutRef` on unmount,
so the live timers and the ref cell are untouched. -/
def unmountCleanup (c : Component) : Component :=
  { c with listenersAttached := false }

/-- `showControlsTemporarily` from the source: set `isControlsVisible`
to `true`; if `controlsTimeoutRef.current` is non-null, `clearTimeout` it
(remove that handle from the live timers); then `setTimeout` a fresh
callback for 3000 ms whose closure captures `renderIsPlaying`, and store
its handle in the ref. -/
def showControlsTemporarily (renderIsPlaying : Bool) (now : ℚ) (c : Component) :
    Component :=
  let afterClear : List HideTimer :=
    match c.controlsTimeoutRef with
    | some h => c.liveTimers.filter (fun t => t.id ≠ h)
    | none => c.liveTimers
  { c with
    state := { c.state with isControlsVisible := true }
    liveTimers :=
      afterClear ++ [{ id := c.nextTimerId
                       capturedIsPlaying := renderIsPlaying
                       fireAt := now + 3000 }]
    controlsTimeoutRef := some c.nextTimerId
    nextTimerId := c.nextTimerId + 1 }

/-- The host runs a pending timeout with handle `tid`: the timer leaves
the pending set and its callback `if (isPlaying) setIsControlsVisible(false)`
runs, where `isPlaying` is the value the closure captured when the
callback was created. A handle that is not pending does nothing. -/
def fireTimer (tid : ℕ) (c : Component) : Component :=
  match c.liveTimers.find? (fun t => t.id = tid) with
  | none => c
  | some t =>
    let c1 : Component :=
      { c with liveTimers := c.liveTimers.filter (fun u => u.id ≠ tid) }
    if t.capturedIsPlaying then
      { c1 with state := { c1.state with isControlsVisible := false } }
    else c1

/-- `handleTimeUpdate` from the source: on a `timeupdate` notification,
set `currentTime` from the resource and set
`progress = (video.currentTime / video.duration) * 100` with JS
division semantics (no zero guard in the source). -/
def handleTimeUpdate (video : Video) (s : PlayerState) : PlayerState :=
  { s with
    currentTime := video.currentTime
    progress := jsMulNum (jsDivQ video.currentTime video.duration) 100 }

/-- `handleLoadedMetadata` from the source: set `duration` from the
resource. -/
def handleLoadedMetadata (video : Video) (s : PlayerState) : PlayerState :=
  { s with duration := video.duration }

/-- `handleEnded` from the source: `setIsPlaying(false)`,
`setProgress(0)`, and `video.currentTime = 0` (the seek-to-zero command).
The source has no `setCurrentTime(0)` call, so the state `currentTime`
field is untouched. -/
def handleEnded (s : PlayerState) : PlayerState × List Cmd :=
  ({ s with isPlaying := false, progress := JSNum.num 0 },
   [Cmd.setCurrentTime 0])

/-- `handlePlayPause` from the source: `setIsPlaying(!isPlaying)` then
`showControlsTemporarily()`. Both closures read the render value of
`isPlaying` (the pre-event value), so the scheduled callback captures the
pre-toggle value. -/
def handlePlayPause (now : ℚ) (c : Component) : Component :=
  let renderIsPlaying := c.state.isPlaying
  let c1 : Component := { c with state := { c.state with isPlaying := !renderIsPlaying } }
  showControlsTemporarily renderIsPlaying now c1

/-- `handleVolumeChange` from the source: `setVolume(newVolume)`; if
`newVolume === 0` then `setIsMuted(true)` else if `isMuted` (render
value) then `setIsMuted(false)`; then `showControlsTemporarily()`. -/
def handleVolumeChange (newVolume : ℚ) (now : ℚ) (c : Component) : Component :=
  let renderIsPlaying := c.state.isPlaying
  let renderIsMuted := c.state.isMuted
  let c1 : Component := { c with state := { c.state with volume := newVolume } }
  let c2 : Component :=
    if newVolume = 0 then { c1 with state := { c1.state with isMuted := true } }
    else if renderIsMuted then { c1 with state := { c1.state with isMuted := false } }
    else c1
  showControlsTemporarily renderIsPlaying now c2

/-- `handleMuteToggle` from the source: `setIsMuted(!isMuted)` then
`showControlsTemporarily()`. -/
def handleMuteToggle (now : ℚ) (c : Component) : Component :=
  let renderIsPlaying := c.state.isPlaying
  let c1 : Component := { c with state := { c.state with isMuted := !c.state.isMuted } }
  showControlsTemporarily renderIsPlaying now c1

/-- `handleProgressChange` from the source: if the video ref is null,
return immediately (no state change, no command); otherwise
`setProgress(newProgress)`, issue the seek
`video.currentTime = (newProgress / 100) * video.duration`, and call
`showControlsTemporarily()`. -/
def handleProgressChange (video : Option Video) (newProgress : ℚ) (now : ℚ)
    (c : Component) : Component × List Cmd :=
  match video with
  | none => (c, [])
  | some v =>
    let renderIsPlaying := c.state.isPlaying
    let c1 : Component := { c with state := { c.state with progress := JSNum.num newProgress } }
    (showControlsTemporarily renderIsPlaying now c1,
     [Cmd.setCurrentTime (newProgress / 100 * v.duration)])

/-- `handleVideoContainerInteraction` from the source: pointer movement
or touch just calls `showControlsTemporarily()`. -/
def handleVideoContainerInteraction (now : ℚ) (c : Component) : Component :=
  showControlsTemporarily c.state.isPlaying now c

/-- Outcome of the asynchronous `video.play()` command. -/
inductive PlayResult where
  | success
  | failure
deriving DecidableEq, Repr

/-- The `[isPlaying]` effect from the source: if the video ref is null,
do nothing; if `isPlaying`, issue `video.play()` and, on rejection, the
`.catch` handler runs `setIsPlaying(false)` and nothing else; otherwise
issue `video.pause()`. The function always returns normally: no error is
escalated. -/
def playPauseEffect (video : Option Video) (result : PlayResult)
    (s : PlayerState) : PlayerState × List Cmd :=
  match video with
  | none => (s, [])
  | some _ =>
    if s.isPlaying then
      match result with
      | PlayResult.success => (s, [Cmd.play])
      | PlayResult.failure => ({ s with isPlaying := false }, [Cmd.play])
    else (s, [Cmd.pause])

/-- The `[volume, isMuted]` effect from the source: if the video ref is
null, do nothing; otherwise apply `video.volume = isMuted ? 0 : volume`. -/
def volumeEffect (video : Option Video) (s : PlayerState) : List Cmd :=
  match video with
  | none => []
  | some _ => [Cmd.setVolume (if s.isMuted then 0 else s.volume)]

/-- The timer bookkeeping invariant: every pending timer is the one whose
handle is stored in `controlsTimeoutRef`. Since the source stores at most
one handle in the ref and every scheduling site clears the previous ref
handle first, this holds operationally; it is what makes "at most one
pending hide" true. -/
def timerInv (c : Component) : Prop :=
  ∀ t ∈ c.liveTimers, c.controlsTimeoutRef = some t.id

/-- A prior state whose `currentTime` is nonzero, used to evaluate
`handleEnded` on a mid-playback state. -/
def c1Sample : PlayerState :=
  { initialState false with currentTime := 5, isPlaying := true }

/-- Claim C1 is false as stated: from a prior state with
`currentTime = 5`, the `ended` handler leaves the state `currentTime`
field at `5`, not `0` — the source resets only the resource
(`video.currentTime = 0`), never the React `currentTime` state. -/
theorem C1_counterexample :
    ((handleEnded c1Sample).1).currentTime = 5 ∧
    ¬ ((handleEnded c1Sample).1).currentTime = 0 := by
  constructor
  · rfl
  · decide

/-- Claim C1 (amended): on an `ended` notification the resulting state has
`isPlaying = false` and `progressPercent = 0`, and a seek-to-zero command
is issued to the media resource; the state `currentTime` field (and every
other field) is left unchanged. -/
theorem C1_ended_resets_playback (s : PlayerState) :
    ((handleEnded s).1).isPlaying = false ∧
    ((handleEnded s).1).progress = JSNum.num 0 ∧
    ((handleEnded s).1).currentTime = s.currentTime ∧
    ((handleEnded s).1).volume = s.volume ∧
    ((handleEnded s).1).isMuted = s.isMuted ∧
    ((handleEnded s).1).duration = s.duration ∧
    ((handleEnded s).1).isControlsVisible = s.isControlsVisible ∧
    (handleEnded s).2 = [Cmd.setCurrentTime 0] :=
  ⟨rfl, rfl, rfl, rfl, rfl, rfl, rfl, rfl⟩

/-- A playing component with visible controls and no pending timer. -/
def c2Sample : Component :=
  { initialComponent false with
    state := { initialState false with isPlaying := true } }

/-- Claim C2 evaluated at the failing input: starting from a playing
component, `handlePlayPause` pauses (`isPlaying` becomes `false`) and
reschedules the hide timer, but the scheduled callback closure captured
the render value `isPlaying = true`; when the timer fires 3000 ms later,
the captured check passes and the controls become Hidden even though the
live `isPlaying` is `false`. The third conjunct exhibits the stale
captured value. -/
theorem C2_staleClosure_hides_while_paused :
    (fireTimer 0 (handlePlayPause 0 c2Sample)).state.isPlaying = false ∧
    (fireTimer 0 (handlePlayPause 0 c2Sample)).state.isControlsVisible = false ∧
    (handlePlayPause 0 c2Sample).liveTimers.map HideTimer.capturedIsPlaying
      = [true] := by
  refine ⟨rfl, rfl, rfl⟩

/-- A mounted component on which `show()` has scheduled a hide timer. -/
def c3Sample : Component :=
  showControlsTemporarily true 0
    (mountEffect (some { currentTime := 0, duration := 0 }) (initialComponent true))

/-- Claim C3 is false as stated: after unmount the three listeners are
removed, but the pending hide timer scheduled before unmount is still
live — nothing in the source clears `controlsTimeoutRef` on unmount. -/
theorem C3_counterexample :
    (unmountCleanup c3Sample).listenersAttached = false ∧
    (unmountCleanup c3Sample).liveTimers ≠ [] := by
  refine ⟨rfl, ?_⟩
  decide

/-- Claim C3 (amended): the unmount cleanup unsubscribes the
media-resource notification handlers, but it does NOT cancel an
outstanding pending hide timer: the live timers, the timer ref, and the
state all survive unmount unchanged, so a pending callback can still fire
against the torn-down component. -/
theorem C3_unmount_removes_listeners_not_timer (c : Component) :
    (unmountCleanup c).listenersAttached = false ∧
    (unmountCleanup c).liveTimers = c.liveTimers ∧
    (unmountCleanup c).controlsTimeoutRef = c.controlsTimeoutRef ∧
    (unmountCleanup c).state = c.state :=
  ⟨rfl, rfl, rfl, rfl⟩

/-- A resource whose metadata has not loaded yet: `duration = 0` and
`currentTime = 0`. -/
def c4Video : Video :=
  { currentTime := 0, duration := 0 }

/-- Claim C4 is false as stated: on a `timeupdate` with `duration = 0`
the source computes `(0 / 0) * 100`, so the stored `progressPercent` is
`NaN`, not `0` — there is no zero guard in `handleTimeUpdate`. -/
theorem C4_counterexample :
    (handleTimeUpdate c4Video (initialState false)).progress = JSNum.nan ∧
    ¬ (handleTimeUpdate c4Video (initialState false)).progress = JSNum.num 0 := by
  refine ⟨rfl, ?_⟩
  decide

/-- Claim C4 (amended): `handleTimeUpdate` sets `currentTime` from the
resource and recomputes `progressPercent = currentTime / duration * 100`
with no zero guard. When `duration > 0` the invariant holds (and the
value lies in `[0, 100]` whenever `0 ≤ currentTime ≤ duration`); when
`duration = 0` the stored value is `NaN` (for `currentTime = 0`) or
`+Infinity` (for `currentTime > 0`), never `0`. -/
theorem C4_timeUpdate_progress (v : Video) (s : PlayerState)
    (h0 : 0 ≤ v.currentTime) :
    (handleTimeUpdate v s).currentTime = v.currentTime ∧
    (0 < v.duration →
      (handleTimeUpdate v s).progress
        = JSNum.num (v.currentTime / v.duration * 100) ∧
      (v.currentTime ≤ v.duration →
        0 ≤ v.currentTime / v.duration * 100 ∧
        v.currentTime / v.duration * 100 ≤ 100)) ∧
    (v.duration = 0 →
      (handleTimeUpdate v s).progress
        = if v.currentTime = 0 then JSNum.nan else JSNum.posInf) := by
  refine ⟨rfl, ?_, ?_⟩
  · intro hd
    constructor
    · simp [handleTimeUpdate, jsDivQ, jsMulNum, hd.ne.symm]
    · intro hle
      constructor
      · exact mul_nonneg (div_nonneg h0 hd.le) (by norm_num)
      · have h1 : v.currentTime / v.duration ≤ 1 := (div_le_one hd).mpr hle
        have h2 := mul_le_mul_of_nonneg_right h1 (by norm_num : (0:ℚ) ≤ 100)
        linarith
  · intro hd
    by_cases hc : v.currentTime = 0
    · simp [handleTimeUpdate, jsDivQ, jsMulNum, hd, hc]
    · have hpos : 0 < v.currentTime := lt_of_le_of_ne h0 (Ne.symm hc)
      simp [handleTimeUpdate, jsDivQ, jsMulNum, hd, hc, hpos]

/-- Witness for C4 at `currentTime = 60`, `duration = 120`. -/
theorem C4_timeUpdate_progress_witness :
    (0:ℚ) ≤ (60:ℚ) ∧
    ((handleTimeUpdate ⟨60, 120⟩ (initialState false)).currentTime = 60 ∧
     ((0:ℚ) < 120 →
       (handleTimeUpdate ⟨60, 120⟩ (initialState false)).progress
         = JSNum.num ((60:ℚ) / 120 * 100) ∧
       ((60:ℚ) ≤ 120 →
         0 ≤ (60:ℚ) / 120 * 100 ∧ (60:ℚ) / 120 * 100 ≤ 100)) ∧
     ((120:ℚ) = 0 →
       (handleTimeUpdate ⟨60, 120⟩ (initialState false)).progress
         = if (60:ℚ) = 0 then JSNum.nan else JSNum.posInf)) :=
  ⟨by norm_num, C4_timeUpdate_progress ⟨60, 120⟩ (initialState false) (by norm_num)⟩

/-- Claim C5 is false as stated: calling `show()` (a pointer-move
interaction) on a paused component still schedules a hide timer — the
`isPlaying` test in the source is inside the timeout callback, not around
the `setTimeout` call — so "if not playing, no hide is scheduled" does
not hold. -/
theorem C5_counterexample :
    (initialComponent false).state.isPlaying = false ∧
    (handleVideoContainerInteraction 0 (initialComponent false)).liveTimers ≠ [] := by
  refine ⟨rfl, ?_⟩
  decide

/-- Claim C5 (amended): under the invariant that every live timer is the
one held in `controlsTimeoutRef`, each `show()` call cancels the previous
pending hide and schedules exactly one fresh hide at 3000 ms after the
call, regardless of `isPlaying` (the callback captures the render value
of `isPlaying`), and makes the controls Visible; when the captured
`isPlaying` is `false`, the scheduled timer fires as a no-op on
visibility, so the controls stay Visible while paused. -/
theorem C5_show_schedules_exactly_one (b : Bool) (now : ℚ) (c : Component)
    (hInv : timerInv c) :
    (showControlsTemporarily b now c).liveTimers =
      [{ id := c.nextTimerId, capturedIsPlaying := b, fireAt := now + 3000 }] ∧
    timerInv (showControlsTemporarily b now c) ∧
    (showControlsTemporarily b now c).state.isControlsVisible = true ∧
    (b = false →
      fireTimer c.nextTimerId (showControlsTemporarily b now c) =
        { showControlsTemporarily b now c with liveTimers := [] }) := by
  have hclear :
      (match c.controlsTimeoutRef with
        | some h => c.liveTimers.filter (fun t => t.id ≠ h)
        | none => c.liveTimers) = [] := by
    cases href : c.controlsTimeoutRef with
    | none =>
      simp only
      cases hl : c.liveTimers with
      | nil => rfl
      | cons t ts =>
        have hmem := hInv t (by rw [hl]; exact List.mem_cons_self t ts)
        rw [href] at hmem
        cases hmem
    | some h =>
      simp only
      refine List.filter_eq_nil_iff.mpr ?_
      intro t ht
      have hmem := hInv t ht
      rw [href] at hmem
      simp at hmem ⊢
      exact hmem.symm
  have hlive :
      (showControlsTemporarily b now c).liveTimers =
        [{ id := c.nextTimerId, capturedIsPlaying := b, fireAt := now + 3000 }] := by
    simp only [showControlsTemporarily, hclear]
    rfl
  refine ⟨hlive, ?_, rfl, ?_⟩
  · intro t ht
    rw [hlive] at ht
    simp at ht
    rw [ht]
    rfl
  · intro hb
    have hfind :
        (showControlsTemporarily b now c).liveTimers.find?
            (fun t => t.id = c.nextTimerId)
          = some { id := c.nextTimerId, capturedIsPlaying := b, fireAt := now + 3000 } := by
      rw [hlive]
      simp [List.find?]
    unfold fireTimer
    rw [hfind]
    subst hb
    simp only [Bool.false_eq_true, if_false]
    rw [Component.mk.injEq]
    refine ⟨rfl, ?_, rfl, rfl, rfl⟩
    rw [hlive]
    simp [List.filter]

/-- Witness for C5 on the freshly mounted (autoplaying) component, whose
timer invariant holds vacuously, with a `show()` capture of
`isPlaying = false`. -/
theorem C5_show_schedules_exactly_one_witness :
    timerInv (initialComponent true) ∧
    ((showControlsTemporarily false 0 (initialComponent true)).liveTimers =
       [{ id := 0, capturedIsPlaying := false, fireAt := 0 + 3000 }] ∧
     timerInv (showControlsTemporarily false 0 (initialComponent true)) ∧
     (showControlsTemporarily false 0 (initialComponent true)).state.isControlsVisible
       = true ∧
     (false = false →
       fireTimer 0 (showControlsTemporarily false 0 (initialComponent true)) =
         { showControlsTemporarily false 0 (initialComponent true) with
           liveTimers := [] })) := by
  have hInv : timerInv (initialComponent true) := by
    intro t ht
    cases ht
  exact ⟨hInv, C5_show_schedules_exactly_one false 0 (initialComponent true) hInv⟩

/-- Claim C6: `togglePlay()` from a paused state optimistically sets
`isPlaying = true`; the dependent effect issues `resource.play()`, and
when that command fails the catch handler reverts exactly `isPlaying` to
`false` — the record-update equality shows no other state field is
modified — and the effect returns normally, escalating nothing. -/
theorem C6_togglePlay_failure_rollback (now : ℚ) (c : Component) (v : Video)
    (h : c.state.isPlaying = false) :
    (handlePlayPause now c).state.isPlaying = true ∧
    playPauseEffect (some v) PlayResult.failure (handlePlayPause now c).state =
      ({ (handlePlayPause now c).state with isPlaying := false }, [Cmd.play]) := by
  unfold handlePlayPause showControlsTemporarily playPauseEffect
  simp [h]

/-- Witness for C6 on the freshly mounted non-autoplaying component. -/
theorem C6_togglePlay_failure_rollback_witness :
    (initialComponent false).state.isPlaying = false ∧
    ((handlePlayPause 0 (initialComponent false)).state.isPlaying = true ∧
     playPauseEffect (some ⟨0, 120⟩) PlayResult.failure
         (handlePlayPause 0 (initialComponent false)).state =
       ({ (handlePlayPause 0 (initialComponent false)).state with
          isPlaying := false }, [Cmd.play])) :=
  ⟨rfl, C6_togglePlay_failure_rollback 0 (initialComponent false) ⟨0, 120⟩ rfl⟩

/-- Claim C7: for `percent` in `[0, 100]`, `seekTo(percent)` sets
`progressPercent = percent` immediately and issues a seek command with
target `percent / 100 * duration`; when `duration = 0` the seek target
is `0`. -/
theorem C7_seekTo_sets_progress_and_target (p now : ℚ) (c : Component) (v : Video)
    (h0 : 0 ≤ p) (h1 : p ≤ 100) :
    ((handleProgressChange (some v) p now c).1).state.progress = JSNum.num p ∧
    (handleProgressChange (some v) p now c).2 =
      [Cmd.setCurrentTime (p / 100 * v.duration)] ∧
    (v.duration = 0 →
      (handleProgressChange (some v) p now c).2 = [Cmd.setCurrentTime 0]) := by
  refine ⟨rfl, rfl, ?_⟩
  intro hd
  simp [handleProgressChange, hd]

/-- Witness for C7 with `duration = 120` and `seekTo(50)`: the seek
target is `60` seconds. -/
theorem C7_seekTo_witness :
    ((handleProgressChange (some ⟨0, 120⟩) 50 0 (initialComponent false)).1).state.progress
      = JSNum.num 50 ∧
    (handleProgressChange (some ⟨0, 120⟩) 50 0 (initialComponent false)).2
      = [Cmd.setCurrentTime 60] := by
  have h := C7_seekTo_sets_progress_and_target 50 0 (initialComponent false) ⟨0, 120⟩
    (by norm_num) (by norm_num)
  refine ⟨h.1, ?_⟩
  rw [h.2.1]
  norm_num

/-- A paused component that is currently muted. -/
def c8Sample : Component :=
  { initialComponent false with
    state := { initialState false with isMuted := true } }

/-- Claim C8: for `v` in `[0, 1]`, `setVolume(v)` stores `volume = v`;
`v = 0` forces `isMuted = true`; a positive `v` while muted clears
`isMuted`; and the dependent effect applies the effective volume
`isMuted ? 0 : volume` (with the updated fields) to the resource. -/
theorem C8_setVolume (v now : ℚ) (c : Component) (vid : Video)
    (h0 : 0 ≤ v) (h1 : v ≤ 1) :
    (handleVolumeChange v now c).state.volume = v ∧
    (v = 0 → (handleVolumeChange v now c).state.isMuted = true) ∧
    (0 < v → c.state.isMuted = true →
      (handleVolumeChange v now c).state.isMuted = false) ∧
    volumeEffect (some vid) (handleVolumeChange v now c).state =
      [Cmd.setVolume (if (handleVolumeChange v now c).state.isMuted then 0 else v)] := by
  unfold handleVolumeChange showControlsTemporarily volumeEffect
  by_cases hz : v = 0
  · simp [hz]
  · by_cases hm : c.state.isMuted
    · simp [hz, hm]
    · simp [hz, hm]

/-- Witness for C8: `setVolume(1/2)` on a muted component stores the
volume, clears `isMuted`, and applies effective volume `1/2`. -/
theorem C8_setVolume_witness :
    (0:ℚ) ≤ 1 / 2 ∧ (1:ℚ) / 2 ≤ 1 ∧
    ((handleVolumeChange (1 / 2) 0 c8Sample).state.volume = 1 / 2 ∧
     ((1:ℚ) / 2 = 0 → (handleVolumeChange (1 / 2) 0 c8Sample).state.isMuted = true) ∧
     ((0:ℚ) < 1 / 2 → c8Sample.state.isMuted = true →
       (handleVolumeChange (1 / 2) 0 c8Sample).state.isMuted = false) ∧
     volumeEffect (some ⟨0, 120⟩) (handleVolumeChange (1 / 2) 0 c8Sample).state =
       [Cmd.setVolume
         (if (handleVolumeChange (1 / 2) 0 c8Sample).state.isMuted then 0 else 1 / 2)]) :=
  ⟨by norm_num, by norm_num,
   C8_setVolume (1 / 2) 0 c8Sample ⟨0, 120⟩ (by norm_num) (by norm_num)⟩

/-- Claim C9: `toggleMute()` flips `isMuted` and leaves the stored
`volume` unchanged; two calls in succession restore the original
`isMuted` with `volume` identical to its value before the two calls. -/
theorem C9_muteToggle_involutive (now1 now2 : ℚ) (c : Component) :
    (handleMuteToggle now1 c).state.isMuted = !c.state.isMuted ∧
    (handleMuteToggle now1 c).state.volume = c.state.volume ∧
    (handleMuteToggle now2 (handleMuteToggle now1 c)).state.isMuted
      = c.state.isMuted ∧
    (handleMuteToggle now2 (handleMuteToggle now1 c)).state.volume
      = c.state.volume := by
  unfold handleMuteToggle showControlsTemporarily
  simp

/-- Claim C10: when the video ref is null, `handleProgressChange` is a
complete no-op — the component (state, timers, ref, listeners) is
returned unchanged and no command is issued; in particular the optimistic
`progress` update and the `showControlsTemporarily` call are both
skipped. -/
theorem C10_seek_noop_when_video_null (p now : ℚ) (c : Component) :
    handleProgressChange none p now c = (c, []) :=
  rfl

end VideoPlayer
